import Mathlib

/-!
Verification of the svtools SV reclassifier (reclass_combined.py) and the
VCF-to-BEDPE converter (vcftobedpeconverter.py), as a shallow embedding.

Numeric FORMAT/INFO values are modelled over the rationals; the transcendental
functions used by the source (math.exp, math.log) are abstract parameters of
the statistical pipeline, since every claim under scrutiny is independent of
their concrete values.
-/

/- The Batteries rational arithmetic is shipped irreducible, which blocks the
kernel evaluation of the concrete witnesses below; these operations are plain
computable definitions, so restoring the default reducibility is sound. -/
set_option allowUnsafeReducibility true in
attribute [semireducible] Rat.add Rat.mul Rat.sub Rat.inv Rat.ofScientific

/-! ## Basic numeric primitives (mirroring the numpy primitives the source uses) -/

/-- Minimum of two rationals. -/
def minQ (a b : ℚ) : ℚ := if a ≤ b then a else b

/-- Absolute value of a rational. -/
def absQ (a : ℚ) : ℚ := if a < 0 then -a else a

/-- Minimum of two integers. -/
def minI (a b : Int) : Int := if a ≤ b then a else b

/-- Maximum of two integers. -/
def maxI (a b : Int) : Int := if a ≤ b then b else a

/-- Floor of a rational as an integer. -/
def floorQ (r : ℚ) : Int := Int.fdiv r.num r.den

/-- Ceiling of a rational as an integer. -/
def ceilQ (r : ℚ) : Int := -Int.fdiv (-r.num) r.den

/-- Insertion of a rational into a sorted list, used to model the sorting that
numpy performs inside median and percentile. -/
def insertSortedQ (x : ℚ) : List ℚ → List ℚ
  | [] => [x]
  | y :: ys => if x ≤ y then x :: y :: ys else y :: insertSortedQ x ys

/-- Stable sort of a list of rationals (models numpy's sort). -/
def sortQ (l : List ℚ) : List ℚ := l.foldr insertSortedQ []

/-- Sum of a list of rationals. -/
def sumQ (l : List ℚ) : ℚ := l.foldl (· + ·) 0

/-- Product of a list of rationals (models np.prod). -/
def prodQ (l : List ℚ) : ℚ := l.foldl (· * ·) 1

/-- Sum of a list of integers. -/
def sumInt (l : List Int) : Int := l.foldl (· + ·) 0

/-- np.percentile with the default linear interpolation: for a sample of size
n the value at percentile q sits at fractional rank q/100 * (n-1) of the
sorted data, interpolating linearly between the two neighbouring order
statistics. -/
def percentileQ (xx : List ℚ) (q : ℚ) : ℚ :=
  let s := sortQ xx
  let n := s.length
  if n = 0 then 0
  else
    let r : ℚ := q * (n - 1) / 100
    let lo := (floorQ r).toNat
    let hi := (ceilQ r).toNat
    s.getD lo 0 + (r - (lo : ℚ)) * (s.getD hi 0 - s.getD lo 0)

/-- np.median: middle order statistic, or the mean of the two middle ones. -/
def medianQ (l : List ℚ) : ℚ :=
  let s := sortQ l
  let n := s.length
  if n = 0 then 0
  else if n % 2 = 1 then s.getD (n / 2) 0
  else (s.getD (n / 2 - 1) 0 + s.getD (n / 2) 0) / 2

/-- mad (reclass_combined.py line 58): median absolute deviation. -/
def madQ (arr : List ℚ) : ℚ :=
  let med := medianQ arr
  medianQ (arr.map (fun x => absQ (x - med)))

/-! ## Quantile helpers and the calc_params trimming step -/

/-- lowQuantile (line 341): 2.5th percentile. -/
def lowQuantile (xx : List ℚ) : ℚ := percentileQ xx (5/2)

/-- highQuantile (line 344): 97.5th percentile. -/
def highQuantile (xx : List ℚ) : ℚ := percentileQ xx (195/2)

/-- The per-(sample, svtype, GT) outlier trim of calc_params (lines 401-403):
keep the records of a group whose log2-ratio lies within the group's
[2.5th percentile, 97.5th percentile] interval. -/
def trimGroup (g : List ℚ) : List ℚ :=
  g.filter (fun x => decide (lowQuantile g ≤ x) && decide (x ≤ highQuantile g))

/-! ## reciprocal_overlap (lines 251-267) -/

/-- reciprocal_overlap: overlap fraction of a query interval against an
aggregate of features, guarded against zero-width query and zero aggregate. -/
def reciprocal_overlap (a : Int × Int) (b_list : List (Int × Int)) : ℚ :=
  if a.2 = a.1 then 0
  else
    let b_aggregate : Int := sumInt (b_list.map (fun b => b.2 - b.1))
    let overlap : ℚ := ((sumInt (b_list.map (fun b => minI a.2 b.2 - maxI a.1 b.1)) : Int) : ℚ)
    if b_aggregate = 0 then 0
    else minQ (overlap / ((a.2 - a.1 : Int) : ℚ)) (overlap / (b_aggregate : ℚ))

/-! ## String primitives

The standard library's string functions are implemented over iterators and do
not evaluate inside the kernel, so the few string operations the source needs
(prefix test, splitting on a one-character separator, integer parsing) are
restated here by structural recursion over the character list. -/

/-- Whether the first character list is a prefix of the second. -/
def isPrefixOfChars : List Char → List Char → Bool
  | [], _ => true
  | _ :: _, [] => false
  | a :: as, b :: bs => a == b && isPrefixOfChars as bs

/-- str.startswith(pre). -/
def startsWithS (s pre : String) : Bool := isPrefixOfChars pre.data s.data

/-- Splitting a character list on a separator character, accumulator form. -/
def splitOnCharGo (sep : Char) : List Char → List Char → List (List Char)
  | [], acc => [acc.reverse]
  | c :: cs, acc =>
      if c == sep then acc.reverse :: splitOnCharGo sep cs []
      else splitOnCharGo sep cs (c :: acc)

/-- str.split(sep) for a one-character separator. -/
def splitOnChar (sep : Char) (s : String) : List String :=
  (splitOnCharGo sep s.data []).map String.mk

/-- The value of a decimal digit character. -/
def digitVal (c : Char) : Option Nat :=
  if c == '0' then some 0 else if c == '1' then some 1 else if c == '2' then some 2
  else if c == '3' then some 3 else if c == '4' then some 4 else if c == '5' then some 5
  else if c == '6' then some 6 else if c == '7' then some 7 else if c == '8' then some 8
  else if c == '9' then some 9 else none

/-- Accumulating decimal read of a character list; none on a non-digit. -/
def natOfCharsGo : List Char → Nat → Option Nat
  | [], acc => some acc
  | c :: cs, acc =>
    match digitVal c with
    | some d => natOfCharsGo cs (acc * 10 + d)
    | none => none

/-- int(s) for an optionally negated decimal string. -/
def toIntS (s : String) : Option Int :=
  match s.data with
  | [] => none
  | '-' :: cs =>
    (match cs with
     | [] => none
     | _ => (natOfCharsGo cs 0).map (fun n => -(n : Int)))
  | cs => (natOfCharsGo cs 0).map (fun n => (n : Int))

/-- Deduplication keeping first occurrences, accumulator form. -/
def firstDedupGo {α : Type} [BEq α] (seen : List α) : List α → List α
  | [] => []
  | x :: xs =>
      if seen.contains x then firstDedupGo seen xs
      else x :: firstDedupGo (x :: seen) xs

/-- The distinct members of a list, first occurrences first (np.unique is used
by the source only for counting distinct values). -/
def firstDedup {α : Type} [BEq α] (l : List α) : List α := firstDedupGo [] l

/-! ## The VCF variant data model

The external Vcf/Variant/Genotype classes are specified only through their
interfaces: a variant exposes its id, chromosome, position, alt allele string,
an INFO dictionary of string values, and one call per sample with the GT, AB
and CN format fields. AB is optional, mirroring the '.' placeholder; GT is
kept as the literal genotype string the code compares against. -/

/-- One sample's FORMAT fields as the classifier reads them. -/
structure SampleCall where
  name : String
  gt : String
  ab : Option ℚ
  cn : ℚ
deriving DecidableEq

/-- One VCF data line as the classifier reads it. -/
structure Variant where
  var_id : String
  chrom : String
  pos : Int
  alt : String
  info : List (String × String)
  samples : List SampleCall
deriving DecidableEq

/-- Dictionary read of an INFO field (first binding wins). -/
def getInfo (l : List (String × String)) (k : String) : Option String :=
  (l.find? (fun p => p.1 == k)).map (fun p => p.2)

/-- Dictionary write of an INFO field: drop any old binding, add the new one. -/
def setInfo (l : List (String × String)) (k v : String) : List (String × String) :=
  l.filter (fun p => !(p.1 == k)) ++ [(k, v)]

/-- Dictionary deletion of an INFO field. -/
def delInfo (l : List (String × String)) (k : String) : List (String × String) :=
  l.filter (fun p => !(p.1 == k))

/-- The variant's SVTYPE INFO entry ('' when absent, which no branch selects). -/
def svtypeOf (var : Variant) : String := (getInfo var.info "SVTYPE").getD ""

/-- float() on the decimal text of an INFO value (sign, digits, optional
fractional part); inputs the source would crash on are mapped to 0. -/
def ratOfString (s : String) : ℚ :=
  let core := fun (body : List Char) =>
    match splitOnCharGo '.' body [] with
    | [i] => (((natOfCharsGo i 0).getD 0 : Nat) : ℚ)
    | [i, f] => (((natOfCharsGo i 0).getD 0 : Nat) : ℚ) +
        (((natOfCharsGo f 0).getD 0 : Nat) : ℚ) / (((10 : Nat) ^ f.length : Nat) : ℚ)
    | _ => 0
  match s.data with
  | '-' :: body => -(core body)
  | body => core body

/-- abs(float(var.info['SVLEN'])) as both classifier entry points compute it. -/
def svlenOf (var : Variant) : ℚ := absQ (ratOfString ((getInfo var.info "SVLEN").getD ""))

/-- var.info['AF'], carried through the copy-number records unparsed. -/
def afOf (var : Variant) : String := (getInfo var.info "AF").getD ""

/-- int(var.info['END']), the right bound used by annotation_intersect. -/
def endOf (var : Variant) : Int := (toIntS ((getInfo var.info "END").getD "")).getD 0

/-- The sex-adjusted copy number of one sample call: males get their copy number
doubled on the X and Y chromosomes (lines 145-148). -/
def adjCN (var : Variant) (gender : String → Nat) (c : SampleCall) : ℚ :=
  if (var.chrom == "X" || var.chrom == "Y") && (gender c.name == 1) then c.cn * 2 else c.cn

/-- The non-excluded sample calls, in sample order (the 'if s in exclude:
continue' pattern of lines 142-144 and 444-446). -/
def keptCalls (var : Variant) (exclude : List String) : List SampleCall :=
  var.samples.filter (fun c => !(exclude.contains c.name))

/-- The sex-adjusted copy numbers of the kept samples having one genotype. -/
def cnsWithGT (var : Variant) (gender : String → Nat) (exclude : List String)
    (gt : String) : List ℚ :=
  ((keptCalls var exclude).filter (fun c => c.gt == gt)).map (adjCN var gender)

/-! ## has_low_freq_depth_support (lines 133-205) -/

/-- has_low_freq_depth_support: quorum/MAD test against the hom-ref baseline.
The diagnostic-dump branch (writedir) only writes files and is omitted. -/
def has_low_freq_depth_support (var : Variant) (gender : String → Nat)
    (exclude : List String) : Bool :=
  let mad_threshold : ℚ := 2
  let mad_quorum : ℚ := 1/2
  let absolute_cn_diff : ℚ := 1/2
  let hom_ref_cn := cnsWithGT var gender exclude "0/0"
  let het_cn := cnsWithGT var gender exclude "0/1"
  let hom_alt_cn := cnsWithGT var gender exclude "1/1"
  if hom_ref_cn.length = 0 || (het_cn ++ hom_alt_cn).length = 0 then false
  else
    let cn_median := medianQ hom_ref_cn
    let cn_mad := madQ hom_ref_cn
    let q := (het_cn ++ hom_alt_cn).countP (fun cn =>
      let resid := if svtypeOf var == "DEL" then -(cn - cn_median) else cn - cn_median
      decide (resid > cn_mad * mad_threshold) && decide (resid > absolute_cn_diff))
    decide ((q : ℚ) / (((het_cn ++ hom_alt_cn).length : Nat) : ℚ) > mad_quorum)

/-! ## has_high_freq_depth_support (lines 68-130)

Note: the source's per-sample exclude filter is commented out in this function
(lines 76-77 and 88-89), so every sample contributes to the regression; the
exclude argument is accepted and ignored, exactly as in the source. -/

/-- has_high_freq_depth_support: allele-balance vs copy-number regression test.
The guard on 'CN' being an active format degenerates to a non-emptiness check
here because the embedded sample calls always carry a CN value. -/
def has_high_freq_depth_support (var : Variant) (gender : String → Nat)
    (exclude : List String) (slope_threshold rsquared_threshold : ℚ) : Bool :=
  if var.samples.isEmpty then false
  else
    let ab_list := var.samples.map (fun c => match c.ab with | none => (-1 : ℚ) | some a => a)
    let rd_list := var.samples.map (adjCN var gender)
    let rd := (ab_list.zip rd_list).filter (fun p => !(p.1 == -1))
    let xs := rd.map (fun p => p.1)
    let ys := rd.map (fun p => p.2)
    if (decide ((firstDedup xs).length > 1)) && (decide ((firstDedup ys).length > 1)) then
      let n : ℚ := (xs.length : Nat)
      let xbar := sumQ xs / n
      let ybar := sumQ ys / n
      let sxx := sumQ (xs.map (fun x => (x - xbar) * (x - xbar)))
      let syy := sumQ (ys.map (fun y => (y - ybar) * (y - ybar)))
      let sxy := sumQ ((xs.zip ys).map (fun p => (p.1 - xbar) * (p.2 - ybar)))
      let slope := sxy / sxx
      let rsq := (sxy * sxy) / (sxx * syy)
      if rsq < rsquared_threshold then false
      else
        let slope := if svtypeOf var == "DEL" then -slope else slope
        if slope < slope_threshold then false else true
    else false

/-! ## to_bnd_strings (lines 207-248)

The source mutates the parsed Variant in place and serializes it twice; the
embedding returns the two record states that get serialized. The serialization
itself (get_var_string) is an external service of the Vcf abstraction. -/

/-- to_bnd_strings: rewrite a DEL/DUP without depth support as a breakend
pair. Lookups of absent INFO keys, which would raise KeyError in the source,
are totalized with '' / position 0; every claim stays inside the defined
region. -/
def to_bnd_strings (var : Variant) : Variant × Variant :=
  let old_type := (getInfo var.info "SVTYPE").getD ""
  let old_id := var.var_id
  let old_pos := var.pos
  let old_end := (getInfo var.info "END").getD ""
  let old_ciend := (getInfo var.info "CIEND").getD ""
  let old_cipos := (getInfo var.info "CIPOS").getD ""
  let old_cipos95 := (getInfo var.info "CIPOS95").getD ""
  let old_ciend95 := (getInfo var.info "CIEND95").getD ""
  let bothInfo :=
    delInfo (delInfo (setInfo (setInfo var.info "SVTYPE" "BND") "EVENT" old_id) "SVLEN") "END"
  let alt1 :=
    if old_type == "DEL" then "N[" ++ var.chrom ++ ":" ++ old_end ++ "["
    else "]" ++ var.chrom ++ ":" ++ old_end ++ "]N"
  let var1 := { var with var_id := old_id ++ "_1",
                         info := setInfo bothInfo "MATEID" (old_id ++ "_2"), alt := alt1 }
  let info2 :=
    setInfo (setInfo (setInfo (setInfo (setInfo (setInfo var1.info
      "MATEID" (old_id ++ "_1")) "CIPOS" old_ciend) "CIEND" old_cipos)
      "CIPOS95" old_ciend95) "CIEND95" old_cipos95) "SECONDARY" "True"
  let alt2 :=
    if old_type == "DEL" then "]" ++ var.chrom ++ ":" ++ toString old_pos ++ "]N"
    else "N[" ++ var.chrom ++ ":" ++ toString old_pos ++ "["
  let var2 := { var1 with var_id := old_id ++ "_2", pos := (toIntS old_end).getD 0,
                          info := info2, alt := alt2 }
  (var1, var2)

/-! ## Annotation overlap (lines 269-339) -/

/-- One BED feature of the mobile-element annotation: start, end, class. -/
structure Feature where
  start : Int
  stop : Int
  cls : String
deriving DecidableEq

/-- Insertion into a list sorted by feature end coordinate (itemgetter(1)). -/
def insertByStop (x : Feature) : List Feature → List Feature
  | [] => [x]
  | y :: ys => if x.stop ≤ y.stop then x :: y :: ys else y :: insertByStop x ys

/-- Stable sort by feature end coordinate, as sorted(key=itemgetter(1)). -/
def sortByStop (l : List Feature) : List Feature := l.foldr insertByStop []

/-- The merge loop of collapse_bed_records: extend the current record while the
next one starts at or before its end, else emit it. -/
def collapseGo (curr : Feature) : List Feature → List Feature
  | [] => [curr]
  | nxt :: rest =>
      if nxt.start ≤ curr.stop then collapseGo { curr with stop := nxt.stop } rest
      else curr :: collapseGo nxt rest

/-- collapse_bed_records: merge overlapping features of one class after sorting
by end coordinate. -/
def collapse_bed_records (bed_list : List Feature) : List Feature :=
  match sortByStop bed_list with
  | [] => []
  | f :: rest => collapseGo f rest

/-- annotation_intersect: best reciprocal-overlap annotation class over the
features of the variant's chromosome, or none below the threshold. The scan
keeps features until the first one starting at or past the variant end (the
while/break of lines 312-325, slop = 0) and groups the overlapping ones by
class in order of first appearance. -/
def annotation_intersect (var : Variant) (ae_dict : List (String × List Feature))
    (threshold : ℚ) : Option String :=
  match ae_dict.find? (fun p => p.1 == var.chrom) with
  | none => none
  | some chromFeats =>
    let var_start := var.pos
    let var_end := endOf var
    let cand := (chromFeats.2.takeWhile (fun f => f.start < var_end)).filter
      (fun f => var_start < f.stop)
    let classes := firstDedup (cand.map (fun f => f.cls))
    let best := classes.foldl (fun acc cls =>
      let merged := collapse_bed_records (cand.filter (fun f => f.cls == cls))
      let frac := reciprocal_overlap (var_start, var_end)
        (merged.map (fun f => (f.start, f.stop)))
      if frac > acc.2 then (cls, frac) else acc) ("", 0)
    if best.2 ≥ threshold then some best.1 else none

/-! ## The sv_classify driver, per data line (lines 507-584) -/

/-- What sv_classify emits for one candidate data line: the unmodified input
line, or a rewritten variant record. -/
inductive OutItem where
  | orig : OutItem
  | rewritten : Variant → OutItem
deriving DecidableEq

/-- The count of positively genotyped samples (lines 552-557): non-excluded
samples whose GT is neither './.' nor '0/0'. -/
def num_pos_samps (var : Variant) (exclude : List String) : Nat :=
  ((keptCalls var exclude).filter
    (fun c => !(c.gt == "./.") && !(c.gt == "0/0"))).length

/-- The mobile-element check of lines 535-543: fires only when an annotation
dictionary is supplied and the variant is a DEL. -/
def meiCheck (ae_dict : Option (List (String × List Feature))) (f_overlap : ℚ)
    (var : Variant) : Option String :=
  match ae_dict with
  | some ad => if svtypeOf var == "DEL" then annotation_intersect var ad f_overlap else none
  | none => none

/-- The per-data-line behaviour of sv_classify, after the header block. The
naive-Bayes test is also run by the source on every counted variant, but its
result feeds only the optional diagnostics file, never the emitted VCF stream,
so it does not appear here. -/
def classifyLine (ae_dict : Option (List (String × List Feature)))
    (f_overlap slope_threshold rsquared_threshold : ℚ)
    (gender : String → Nat) (exclude : List String) (var : Variant) : List OutItem :=
  let min_pos_samps_for_regression := 10
  if !(svtypeOf var == "DEL" || svtypeOf var == "DUP") then [OutItem.orig]
  else
    match meiCheck ae_dict f_overlap var with
    | some ae =>
        let ae := if startsWithS ae "SINE" || startsWithS ae "LINE" ||
            (startsWithS ((splitOnChar '|' ae).getD 2 "") "SVA") then "ME:" ++ ae else ae
        [OutItem.rewritten { var with alt := "<DEL:" ++ ae ++ ">",
                                      info := setInfo var.info "SVTYPE" "MEI" }]
    | none =>
      if var.chrom == "X" || var.chrom == "Y" then [OutItem.orig]
      else if num_pos_samps var exclude = 0 then [OutItem.orig]
      else if num_pos_samps var exclude < min_pos_samps_for_regression then
        if has_low_freq_depth_support var gender exclude then [OutItem.orig]
        else [OutItem.rewritten (to_bnd_strings var).1, OutItem.rewritten (to_bnd_strings var).2]
      else
        if has_high_freq_depth_support var gender exclude slope_threshold rsquared_threshold then
          [OutItem.orig]
        else [OutItem.rewritten (to_bnd_strings var).1, OutItem.rewritten (to_bnd_strings var).2]

/-! ## The naive-Bayes support test (lines 347-359, 432-479)

The pipeline is parameterized by the transcendental functions the source takes
from the math library: expQ for math.exp, lnQ for math.log, log2Q for
math.log(x, 2). Every claim about the pipeline holds for all of them. -/

/-- A fitted offset~log_len ordinary-least-squares regression, reduced to its
interface: predict(row) = intercept + slope * log_len. -/
structure Fit where
  intercept : ℚ
  slope : ℚ
deriving DecidableEq

/-- The prediction of a fitted regression at one row's log_len. -/
def Fit.predict (f : Fit) (log_len : ℚ) : ℚ := f.intercept + f.slope * log_len

/-- One row of the params table built by calc_params: the per-genotype
mean/sd of the adjusted log2-ratio for one (sample, svtype). -/
structure ParamRow where
  sample : String
  svtype : String
  mean0 : ℚ
  mean1 : ℚ
  mean2 : ℚ
  sd0 : ℚ
  sd1 : ℚ
  sd2 : ℚ
deriving DecidableEq

/-- One row of the dataframe flowing through has_cn_support_by_nb: the CN_rec
fields plus the columns the pipeline adds (log2r_adj, the joined distribution
parameters, the three likelihoods, the merged priors and the mixture). -/
structure NBRow where
  var_id : String
  sample : String
  svtype : String
  svlen : ℚ
  af : String
  gt : String
  cn : ℚ
  log_len : ℚ
  log2r : ℚ
  log2r_adj : ℚ := 0
  mean0 : ℚ := 0
  mean1 : ℚ := 0
  mean2 : ℚ := 0
  sd0 : ℚ := 0
  sd1 : ℚ := 0
  sd2 : ℚ := 0
  lld0 : ℚ := 0
  lld1 : ℚ := 0
  lld2 : ℚ := 0
  p0 : ℚ := 0
  p1 : ℚ := 0
  p2 : ℚ := 0
  p_mix : ℚ := 0
deriving DecidableEq

/-- lld (line 347): the unnormalized Gaussian likelihood
(1/sd) * exp(-(x-mean)^2 / (2 sd^2)). -/
def lld (expQ : ℚ → ℚ) (xx mean sd : ℚ) : ℚ :=
  1 / sd * expQ (-(xx - mean) * (xx - mean) / (2 * sd * sd))

/-- The CN_rec construction of has_cn_support_by_nb (lines 442-457): one record
per non-excluded sample, with log2r = log2((CN + 0.1) / 2). -/
def buildTestSet (lnQ log2Q : ℚ → ℚ) (var : Variant) (exclude : List String) : List NBRow :=
  (keptCalls var exclude).map (fun c =>
    { var_id := var.var_id, sample := c.name, svtype := svtypeOf var, svlen := svlenOf var,
      af := afOf var, gt := c.gt, cn := c.cn, log_len := lnQ (svlenOf var),
      log2r := log2Q ((c.cn + 1/10) / 2) })

/-- Subtraction of a fitted regression's prediction from a row's log2-ratio. -/
def adjustRow (fit : Fit) (r : NBRow) : NBRow :=
  { r with log2r_adj := r.log2r - fit.predict r.log_len }

/-- Lines 459-470: apply the small-deletion bias correction to DEL rows with
length < 1000 and genotype 1/1 or 0/1, pass every other row through with
log2r_adj = log2r, and drop the hom-ref rows. -/
def nbAdjusted (lnQ log2Q : ℚ → ℚ) (var : Variant) (exclude : List String)
    (het_del_fit hom_del_fit : Fit) : List NBRow :=
  let test_set := buildTestSet lnQ log2Q var exclude
  let shomd := (test_set.filter (fun r =>
    r.svtype == "DEL" && r.gt == "1/1" && decide (r.svlen < 1000))).map (adjustRow hom_del_fit)
  let shetd := (test_set.filter (fun r =>
    r.svtype == "DEL" && r.gt == "0/1" && decide (r.svlen < 1000))).map (adjustRow het_del_fit)
  let df1 := (test_set.filter (fun r =>
    !(r.svtype == "DEL") || r.gt == "0/0" || decide (r.svlen ≥ 1000))).map
      (fun r => { r with log2r_adj := r.log2r })
  (df1 ++ (shomd ++ shetd)).filter (fun r => !(r.gt == "0/0"))

/-- The left join of a row against the params table on (sample, svtype). -/
def lookupParams (params : List ParamRow) (sample svtype : String) : Option ParamRow :=
  params.find? (fun p => p.sample == sample && p.svtype == svtype)

/-- Lines 472-477: join a row with its sample's distribution entry and compute
the three genotype likelihoods at the row's adjusted log2-ratio. A missing
entry, NaN in the source, is totalized with zero parameters. -/
def mergeRow (expQ : ℚ → ℚ) (params : List ParamRow) (r : NBRow) : NBRow :=
  let p := (lookupParams params r.sample r.svtype).getD ⟨r.sample, r.svtype, 0, 0, 0, 0, 0, 0⟩
  let r := { r with mean0 := p.mean0, mean1 := p.mean1, mean2 := p.mean2,
                    sd0 := p.sd0, sd1 := p.sd1, sd2 := p.sd2 }
  { r with lld0 := lld expQ r.log2r_adj r.mean0 r.sd0,
           lld1 := lld expQ r.log2r_adj r.mean1 r.sd1,
           lld2 := lld expQ r.log2r_adj r.mean2 r.sd2 }

/-- The dataframe handed by has_cn_support_by_nb to rd_support_nb. -/
def nbMerged (expQ lnQ log2Q : ℚ → ℚ) (var : Variant) (exclude : List String)
    (het_del_fit hom_del_fit : Fit) (params : List ParamRow) : List NBRow :=
  (nbAdjusted lnQ log2Q var exclude het_del_fit hom_del_fit).map (mergeRow expQ params)

/-- The fixed genotype-to-prior table tr of rd_support_nb (line 434), as
(p0, p1, p2) per genotype; genotypes outside the table get the NaN row of the
source's left merge, totalized to zeros. -/
def trPriors (gt : String) : ℚ × ℚ × ℚ :=
  if gt == "0/0" then (1, 0, 0)
  else if gt == "0/1" then (1/10, 9/20, 9/20)
  else if gt == "1/1" then (0, 1/2, 1/2)
  else (0, 0, 0)

/-- The prior merge and mixture column of rd_support_nb (lines 435-436):
p_mix = lld0 p0 + lld1 p1 + lld2 p2. -/
def priorRow (r : NBRow) : NBRow :=
  let pr := trPriors r.gt
  let r := { r with p0 := pr.1, p1 := pr.2.1, p2 := pr.2.2 }
  { r with p_mix := r.lld0 * r.p0 + r.lld1 * r.p1 + r.lld2 * r.p2 }

/-- rd_support_nb (lines 432-437): support iff
p_cnv * prod(p_mix) > (1 - p_cnv) * prod(lld0). frac_BND is accepted and
ignored, exactly as in the source. -/
def rd_support_nb (temp : List NBRow) (p_cnv frac_BND : ℚ) : Bool :=
  let temp := temp.map priorRow
  decide (p_cnv * prodQ (temp.map (fun r => r.p_mix)) >
    (1 - p_cnv) * prodQ (temp.map (fun r => r.lld0)))

/-- has_cn_support_by_nb (lines 440-479) with the default frac_BND = 0.25 and
p_cnv = 0.5 the driver leaves untouched. The gender argument is accepted and
unused: the source's sex adjustment here is commented out. -/
def has_cn_support_by_nb (expQ lnQ log2Q : ℚ → ℚ) (var : Variant)
    (gender : String → Nat) (exclude : List String) (het_del_fit hom_del_fit : Fit)
    (params : List ParamRow) : Bool :=
  rd_support_nb (nbMerged expQ lnQ log2Q var exclude het_del_fit hom_del_fit params)
    (1/2) (1/4)

/-! ## VcfToBedpeConverter (vcftobedpeconverter.py) -/

/-- The failures the converter can signal; missingEnd is the ValueError of
simple_breakpoints ('END entry in VCF required for conversion to BEDPE'),
missingSvtype the one of convert, the rest model the exceptions the source
lets propagate from parsing. -/
inductive ConvErr where
  | missingSvtype : ConvErr
  | missingEnd : ConvErr
  | badEnd : ConvErr
  | badBndAlt : ConvErr
  | noVariant : ConvErr
deriving DecidableEq

/-- Decidable equality of Except values, component by component. -/
instance {ε α : Type} [DecidableEq ε] [DecidableEq α] : DecidableEq (Except ε α) := fun a b =>
  match a, b with
  | Except.error x, Except.error y =>
      if h : x = y then isTrue (by rw [h])
      else isFalse (fun hh => h (by cases hh; rfl))
  | Except.error _, Except.ok _ => isFalse (fun hh => by cases hh)
  | Except.ok _, Except.error _ => isFalse (fun hh => by cases hh)
  | Except.ok x, Except.ok y =>
      if h : x = y then isTrue (by rw [h])
      else isFalse (fun hh => h (by cases hh; rfl))

/-- Whether a character is one of the two breakend brackets. -/
def isBracket (c : Char) : Bool := c == '[' || c == ']'

/-- parse_bnd_alt_string (lines 15-29): the first bracket, the nonempty region
up to the matching bracket, split at the colon into mate chromosome and
position. none where the source's assertions or unpacking would fail. -/
def parse_bnd_alt_string (alt : String) : Option (Char × String × Int) :=
  match alt.data.findIdx? isBracket with
  | none => none
  | some i =>
    let sep1 := alt.data.getD i ' '
    match alt.data.drop (i + 1) with
    | [] => none
    | c0 :: rest =>
      match rest.findIdx? isBracket with
      | none => none
      | some j =>
        let sep2 := rest.getD j ' '
        if sep1 == sep2 then
          match splitOnCharGo ':' (c0 :: rest.take j) [] with
          | [chrom2, bp] => (toIntS (String.mk bp)).map (fun n => (sep1, String.mk chrom2, n))
          | _ => none
        else none

/-- The eight-component breakpoint tuple both parsers return: chromosomes,
start/end pairs and orientations. -/
structure Breakpoints where
  c1 : String
  s1 : Int
  e1 : Int
  c2 : String
  s2 : Int
  e2 : Int
  o1 : Char
  o2 : Char
deriving DecidableEq

/-- bnd_breakpoints (lines 31-58). The source also writes breakpoint2 back
into the variant's END info field; that mutation feeds only the INFO string of
the output, which stays an external serializer here. -/
def bnd_breakpoints (v : Variant) : Except ConvErr Breakpoints :=
  match parse_bnd_alt_string v.alt with
  | none => Except.error ConvErr.badBndAlt
  | some (sep, chrom2, bp2) =>
    let startsWithSep := v.alt.data.getD 0 ' ' == sep
    let breakpoint1 := if startsWithSep then v.pos - 1 else v.pos
    let o1 := if startsWithSep then '-' else '+'
    let breakpoint2 := if sep == '[' then bp2 - 1 else bp2
    let o2 := if sep == '[' then '-' else '+'
    Except.ok ⟨v.chrom, breakpoint1, breakpoint1, chrom2, breakpoint2, breakpoint2, o1, o2⟩

/-- simple_breakpoints (lines 60-84): requires the END info entry, signalling
the missing-END ValueError otherwise; orientations come from the first two
characters of STRANDS when present. -/
def simple_breakpoints (v : Variant) : Except ConvErr Breakpoints :=
  let breakpoint1 := v.pos
  match getInfo v.info "END" with
  | none => Except.error ConvErr.missingEnd
  | some e =>
    match toIntS e with
    | none => Except.error ConvErr.badEnd
    | some breakpoint2 =>
      let o1 := match getInfo v.info "STRANDS" with
                | some s => s.data.getD 0 '+'
                | none => '+'
      let o2 := match getInfo v.info "STRANDS" with
                | some s => s.data.getD 1 '+'
                | none => '+'
      Except.ok ⟨v.chrom, breakpoint1, breakpoint1, v.chrom, breakpoint2, breakpoint2, o1, o2⟩

/-- adjust_coordinate (lines 86-96): shift a start/end pair by the two comma
separated integers of a confidence-interval info tag, when present. -/
def adjust_coordinate (v : Variant) (info_tag : String) (start stop : Int) : Int × Int :=
  match getInfo v.info info_tag with
  | some s =>
    let span := (splitOnChar ',' s).map (fun t => (toIntS t).getD 0)
    (start + span.getD 0 0, stop + span.getD 1 0)
  | none => (start, stop)

/-- The fields of the emitted BEDPE record the claims inspect; the remaining
columns (qual, filter, the info and format strings) are produced by external
serializers of the Bedpe/Variant abstraction. -/
structure Bedpe where
  c1 : String
  s1 : Int
  e1 : Int
  c2 : String
  s2 : Int
  e2 : Int
  name : String
  svtype : String
  o1 : Char
  o2 : Char
deriving DecidableEq

/-- VcfToBedpeConverter.convert (lines 98-155). -/
def convert (primary_variant secondary_variant : Option Variant) : Except ConvErr Bedpe :=
  match (match primary_variant with
         | some v => some v
         | none => secondary_variant) with
  | none => Except.error ConvErr.noVariant
  | some vv =>
    match getInfo vv.info "SVTYPE" with
    | none => Except.error ConvErr.missingSvtype
    | some sv_type =>
      match (if sv_type == "BND" then bnd_breakpoints vv else simple_breakpoints vv) with
      | Except.error e => Except.error e
      | Except.ok bp =>
        let se1 := adjust_coordinate vv "CIPOS" bp.s1 bp.e1
        let se2 := adjust_coordinate vv "CIEND" bp.s2 bp.e2
        let swapped : Breakpoints :=
          if primary_variant.isNone then
            ⟨bp.c2, se2.1, se2.2, bp.c1, se1.1, se1.2, bp.o2, bp.o1⟩
          else ⟨bp.c1, se1.1, se1.2, bp.c2, se2.1, se2.2, bp.o1, bp.o2⟩
        let name := match getInfo vv.info "EVENT" with
                    | some ev => ev
                    | none => vv.var_id
        Except.ok ⟨swapped.c1, maxI swapped.s1 0, maxI swapped.e1 0, swapped.c2,
                   maxI swapped.s2 0, maxI swapped.e2 0, name, sv_type,
                   swapped.o1, swapped.o2⟩

/-! ## Concrete records used by the witnesses and counterexamples below -/

def cvarDel7 : Variant where
  var_id := "v7"
  chrom := "2"
  pos := 100
  alt := "<DEL>"
  info := [("SVTYPE","DEL"), ("END","200"), ("SVLEN","-100"), ("CIPOS","-10,9"), ("CIEND","-8,7"), ("CIPOS95","-2,1"), ("CIEND95","-3,4")]
  samples := []

def cvarMeiX : Variant where
  var_id := "vx"
  chrom := "X"
  pos := 100
  alt := "<DEL>"
  info := [("SVTYPE","DEL"), ("END","200")]
  samples := []

def cvarLow : Variant where
  var_id := "v1"
  chrom := "1"
  pos := 5
  alt := "<DEL>"
  info := [("SVTYPE","DEL")]
  samples := [⟨"s1","0/0",none,2⟩, ⟨"s2","0/0",none,2⟩, ⟨"s3","0/1",none,1⟩]

def cvarHiA : Variant where
  var_id := "v1"
  chrom := "1"
  pos := 5
  alt := "<DEL>"
  info := [("SVTYPE","DEL")]
  samples := [⟨"s1","0/0",some 0,2⟩, ⟨"s2","0/1",some (1/2),1⟩, ⟨"s3","./.",none,2⟩]

def cvarHiB : Variant where
  var_id := "v1"
  chrom := "1"
  pos := 5
  alt := "<DEL>"
  info := [("SVTYPE","DEL")]
  samples := [⟨"s1","0/0",some 0,2⟩, ⟨"s2","0/1",some (1/2),1⟩, ⟨"s3","./.",some (1/4),10⟩]

def cvarNB : Variant where
  var_id := "v9"
  chrom := "1"
  pos := 5
  alt := "<DEL>"
  info := [("SVTYPE","DEL"), ("SVLEN","-2000"), ("AF","0.5"), ("END","2005")]
  samples := [⟨"s1","0/1",none,3/2⟩, ⟨"s2","0/0",none,2⟩]

def cvarBnd : Variant where
  var_id := "b1"
  chrom := "1"
  pos := 1
  alt := "N[2:1["
  info := [("SVTYPE","BND"), ("CIPOS","-100,5")]
  samples := []

/-! ## Dictionary lemmas for the INFO operations -/

theorem find?_filter_self (l : List (String × String)) (k : String) :
    List.find? (fun p => p.1 == k) (l.filter (fun p => !(p.1 == k))) = none := by
  induction l with
  | nil => rfl
  | cons p t ih =>
      by_cases h : p.1 = k
      · have f : (p.1 == k) = true := by simp [h]
        simp only [List.filter_cons, f, Bool.not_true, Bool.false_eq_true, if_false]
        exact ih
      · have f : (p.1 == k) = false := by simp [h]
        simp only [List.filter_cons, f, Bool.not_false, if_true, List.find?_cons]
        exact ih

theorem find?_filter_other (l : List (String × String)) (k k' : String) (h : ¬(k' = k)) :
    List.find? (fun p => p.1 == k') (l.filter (fun p => !(p.1 == k))) =
      List.find? (fun p => p.1 == k') l := by
  induction l with
  | nil => rfl
  | cons p t ih =>
      by_cases hk : p.1 = k
      · have f : (p.1 == k) = true := by simp [hk]
        have f2 : (p.1 == k') = false := by
          simp only [beq_eq_false_iff_ne, ne_eq]
          exact fun hh => h (by rw [← hh, hk])
        simp only [List.filter_cons, f, Bool.not_true, Bool.false_eq_true, if_false,
          List.find?_cons, f2]
        exact ih
      · have f : (p.1 == k) = false := by simp [hk]
        by_cases hk' : p.1 = k'
        · have f2 : (p.1 == k') = true := by simp [hk']
          simp only [List.filter_cons, f, Bool.not_false, if_true, List.find?_cons, f2]
        · have f2 : (p.1 == k') = false := by simp [hk']
          simp only [List.filter_cons, f, Bool.not_false, if_true, List.find?_cons, f2]
          exact ih

theorem getInfo_setInfo_self (l : List (String × String)) (k v : String) :
    getInfo (setInfo l k v) k = some v := by
  unfold getInfo setInfo
  induction l with
  | nil =>
      have f : (k == k) = true := by simp
      simp only [List.filter_nil, List.nil_append, List.find?_cons, f]
      rfl
  | cons p t ih =>
      by_cases h : p.1 = k
      · have f : (p.1 == k) = true := by simp [h]
        simp only [List.filter_cons, f, Bool.not_true, Bool.false_eq_true, if_false]
        exact ih
      · have f : (p.1 == k) = false := by simp [h]
        simp only [List.filter_cons, f, Bool.not_false, if_true, List.cons_append,
          List.find?_cons]
        exact ih

theorem getInfo_setInfo_ne (l : List (String × String)) (k v k' : String) (h : ¬(k' = k)) :
    getInfo (setInfo l k v) k' = getInfo l k' := by
  have f0 : (k == k') = false := by
    simp only [beq_eq_false_iff_ne, ne_eq]
    exact fun hh => h hh.symm
  unfold getInfo setInfo
  induction l with
  | nil =>
      simp only [List.filter_nil, List.nil_append, List.find?_cons, f0, List.find?_nil]
  | cons p t ih =>
      by_cases hk : p.1 = k
      · have f : (p.1 == k) = true := by simp [hk]
        have f2 : (p.1 == k') = false := by
          simp only [beq_eq_false_iff_ne, ne_eq]
          exact fun hh => h (by rw [← hh, hk])
        simp only [List.filter_cons, f, Bool.not_true, Bool.false_eq_true, if_false,
          List.find?_cons, f2]
        exact ih
      · have f : (p.1 == k) = false := by simp [hk]
        by_cases hk' : p.1 = k'
        · have f2 : (p.1 == k') = true := by simp [hk']
          simp only [List.filter_cons, f, Bool.not_false, if_true, List.cons_append,
            List.find?_cons, f2]
        · have f2 : (p.1 == k') = false := by simp [hk']
          simp only [List.filter_cons, f, Bool.not_false, if_true, List.cons_append,
            List.find?_cons, f2]
          exact ih

theorem getInfo_delInfo_self (l : List (String × String)) (k : String) :
    getInfo (delInfo l k) k = none := by
  unfold getInfo delInfo
  rw [find?_filter_self]
  rfl

theorem getInfo_delInfo_ne (l : List (String × String)) (k k' : String) (h : ¬(k' = k)) :
    getInfo (delInfo l k) k' = getInfo l k' := by
  unfold getInfo delInfo
  rw [find?_filter_other _ _ _ h]

/-! ## Claim C5: quantile trimming -/

/-- Claim C5, counterexample: re-applying the [2.5, 97.5]-percentile trim to an
already-trimmed group is not a no-op; on the group 0..9 the first trim keeps
1..8 and the second trim removes 1 and 8 again, because the percentiles are
linearly interpolated inside the trimmed data's range. -/
theorem C5_trim_not_idempotent :
    trimGroup (trimGroup [0,1,2,3,4,5,6,7,8,9]) ≠ trimGroup [0,1,2,3,4,5,6,7,8,9] := by decide

/-- Claim C5 (amended): quantile trimming is contractive rather than
idempotent: re-applying the [2.5th, 97.5th]-percentile filter to a group
already trimmed once only ever removes records (the result is a sublist), but
it can remove further ones. -/
theorem C5_trim_contractive (g : List ℚ) :
    List.Sublist (trimGroup (trimGroup g)) (trimGroup g) :=
  List.filter_sublist (trimGroup g)

/-- Claim C5, witness: the contraction theorem applied to the group 0..9. -/
theorem C5_trim_contractive_witness :
    List.Sublist (trimGroup (trimGroup [0,1,2,3,4,5,6,7,8,9]))
      (trimGroup [0,1,2,3,4,5,6,7,8,9]) :=
  C5_trim_contractive [0,1,2,3,4,5,6,7,8,9]

/-! ## Claim C8: reciprocal_overlap -/

/-- Claim C8, counterexample: on the disjoint feature [20,30] the function
returns -1.0, not the claimed 0.0 - the negative gap enters the overlap sum
and no clamping is applied. -/
theorem C8_disjoint_not_zero : reciprocal_overlap (0,10) [(20,30)] ≠ 0 := by decide

/-- Claim C8 (amended): reciprocal_overlap([0,10], [[0,10]]) = 1.0 and
reciprocal_overlap([0,10], [[5,5]]) = 0.0 as claimed, but the disjoint case
reciprocal_overlap([0,10], [[20,30]]) returns -1.0 rather than 0.0; the
division-by-zero guards hold: a zero-width query interval or a zero aggregate
feature width yields 0. -/
theorem C8_reciprocal_overlap :
    reciprocal_overlap (0,10) [(0,10)] = 1 ∧
    reciprocal_overlap (0,10) [(20,30)] = -1 ∧
    reciprocal_overlap (0,10) [(5,5)] = 0 ∧
    (∀ a : Int × Int, ∀ bs : List (Int × Int), a.2 = a.1 → reciprocal_overlap a bs = 0) ∧
    (∀ a : Int × Int, ∀ bs : List (Int × Int),
      sumInt (bs.map (fun b => b.2 - b.1)) = 0 → reciprocal_overlap a bs = 0) := by
  refine ⟨by decide, by decide, by decide, ?_, ?_⟩
  · intro a bs h
    simp [reciprocal_overlap, h]
  · intro a bs h
    by_cases h2 : a.2 = a.1
    · simp [reciprocal_overlap, h2]
    · simp [reciprocal_overlap, h2, h]

/-- Claim C8, witness: the two degenerate-input guards applied at concrete
inputs - a zero-width query interval and a zero-width feature aggregate. -/
theorem C8_reciprocal_overlap_witness :
    reciprocal_overlap (3,3) [(0,5)] = 0 ∧ reciprocal_overlap (0,4) [(2,2)] = 0 :=
  ⟨C8_reciprocal_overlap.2.2.2.1 (3,3) [(0,5)] rfl,
   C8_reciprocal_overlap.2.2.2.2 (0,4) [(2,2)] (by decide)⟩

/-! ## Claim C3: has_low_freq_depth_support -/

/-- Claim C3: the low-frequency test returns false whenever there are zero
non-excluded hom-ref samples or zero non-excluded het/hom-alt samples;
otherwise it returns true iff the fraction of het/hom-alt samples whose
residual (copy number minus the hom-ref median, sign-flipped for DEL) exceeds
both twice the hom-ref MAD and the absolute floor 0.5 is itself strictly
greater than 0.5. -/
theorem C3_low_freq_characterization (var : Variant) (gender : String → Nat)
    (exclude : List String) :
    ((cnsWithGT var gender exclude "0/0" = [] ∨
      cnsWithGT var gender exclude "0/1" ++ cnsWithGT var gender exclude "1/1" = []) →
      has_low_freq_depth_support var gender exclude = false) ∧
    (cnsWithGT var gender exclude "0/0" ≠ [] →
      cnsWithGT var gender exclude "0/1" ++ cnsWithGT var gender exclude "1/1" ≠ [] →
      (has_low_freq_depth_support var gender exclude = true ↔
        ((((cnsWithGT var gender exclude "0/1" ++ cnsWithGT var gender exclude "1/1").countP
            (fun cn =>
              let resid := if svtypeOf var == "DEL"
                then -(cn - medianQ (cnsWithGT var gender exclude "0/0"))
                else cn - medianQ (cnsWithGT var gender exclude "0/0")
              decide (resid > madQ (cnsWithGT var gender exclude "0/0") * 2) &&
                decide (resid > 1/2)) : Nat) : ℚ) /
          (((cnsWithGT var gender exclude "0/1" ++
             cnsWithGT var gender exclude "1/1").length : Nat) : ℚ) > 1/2))) := by
  constructor
  · intro h
    rcases h with h | h <;> simp [has_low_freq_depth_support, h]
  · intro h1 h2
    have c1 : ¬((cnsWithGT var gender exclude "0/0").length = 0) :=
      fun hh => h1 (List.length_eq_zero.mp hh)
    have c2 : ¬((cnsWithGT var gender exclude "0/1" ++
        cnsWithGT var gender exclude "1/1").length = 0) :=
      fun hh => h2 (List.length_eq_zero.mp hh)
    simp only [has_low_freq_depth_support, decide_eq_false c1, decide_eq_false c2,
      Bool.or_self, Bool.false_eq_true, if_false, decide_eq_true_eq]

/-- Claim C3, witness: the characterization applied to a concrete DEL variant
with two hom-ref samples at copy number 2 and one het sample at copy number 1:
the single residual 1 beats both thresholds, so the quorum fraction is 1. -/
theorem C3_low_freq_witness :
    has_low_freq_depth_support cvarLow (fun _ => 2) [] = true ↔
      ((((cnsWithGT cvarLow (fun _ => 2) [] "0/1" ++ cnsWithGT cvarLow (fun _ => 2) [] "1/1").countP
          (fun cn =>
            let resid := if svtypeOf cvarLow == "DEL"
              then -(cn - medianQ (cnsWithGT cvarLow (fun _ => 2) [] "0/0"))
              else cn - medianQ (cnsWithGT cvarLow (fun _ => 2) [] "0/0")
            decide (resid > madQ (cnsWithGT cvarLow (fun _ => 2) [] "0/0") * 2) &&
              decide (resid > 1/2)) : Nat) : ℚ) /
        (((cnsWithGT cvarLow (fun _ => 2) [] "0/1" ++
           cnsWithGT cvarLow (fun _ => 2) [] "1/1").length : Nat) : ℚ) > 1/2) :=
  (C3_low_freq_characterization cvarLow (fun _ => 2) []).2 (by decide) (by decide)

/-! ## Claim C6: the sex-chromosome skip -/

/-- Claim C6, counterexample: with a mobile-element annotation index supplied,
a DEL on chromosome X fully covered by a LINE1 feature is rewritten as an MEI
record, not passed through unchanged - the mobile-element check runs before
the sex-chromosome check. -/
theorem C6_mei_preempts_sex_skip :
    classifyLine (some [("X", [⟨100, 200, "LINE1"⟩])]) (9/10) 1 (2/10)
      (fun _ => 2) [] cvarMeiX ≠ [OutItem.orig] := by decide

/-- Claim C6 (amended): a candidate variant on chromosome X or Y that the
mobile-element check does not rewrite is emitted unchanged - the sex skip
short-circuits before every depth test - but the check for mobile elements
runs first, so with an annotation index supplied an X/Y DEL can be rewritten
as MEI instead. -/
theorem C6_sex_skip (ae_dict : Option (List (String × List Feature)))
    (f_overlap slope_threshold rsquared_threshold : ℚ) (gender : String → Nat)
    (exclude : List String) (var : Variant)
    (hx : var.chrom = "X" ∨ var.chrom = "Y")
    (hmei : meiCheck ae_dict f_overlap var = none) :
    classifyLine ae_dict f_overlap slope_threshold rsquared_threshold gender exclude var =
      [OutItem.orig] := by
  rcases hx with h | h <;> simp [classifyLine, hmei, h]

/-- Claim C6, witness: the same chromosome-X deletion passes through unchanged
when no annotation index is supplied. -/
theorem C6_sex_skip_witness :
    classifyLine none (9/10) 1 (2/10) (fun _ => 2) [] cvarMeiX = [OutItem.orig] :=
  C6_sex_skip none (9/10) 1 (2/10) (fun _ => 2) [] cvarMeiX (Or.inl rfl) rfl

/-! ## Claim C2: the per-line decision of sv_classify -/

/-- Claim C2: for a DEL/DUP candidate on an autosome that the mobile-element
check does not rewrite, sv_classify passes the line through unchanged when no
sample is positively genotyped; otherwise the low-frequency test decides below
10 positive samples and the high-frequency test from 10 on, the supported line
passing through unchanged and the unsupported one being replaced by exactly the
two breakend lines of to_bnd_strings. -/
theorem C2_driver_decision (ae_dict : Option (List (String × List Feature)))
    (f_overlap slope_threshold rsquared_threshold : ℚ) (gender : String → Nat)
    (exclude : List String) (var : Variant)
    (hsv : svtypeOf var = "DEL" ∨ svtypeOf var = "DUP")
    (hmei : meiCheck ae_dict f_overlap var = none)
    (hxy : ¬(var.chrom = "X") ∧ ¬(var.chrom = "Y")) :
    classifyLine ae_dict f_overlap slope_threshold rsquared_threshold gender exclude var =
      if num_pos_samps var exclude = 0 then [OutItem.orig]
      else if num_pos_samps var exclude < 10 then
        if has_low_freq_depth_support var gender exclude then [OutItem.orig]
        else [OutItem.rewritten (to_bnd_strings var).1,
              OutItem.rewritten (to_bnd_strings var).2]
      else
        if has_high_freq_depth_support var gender exclude slope_threshold rsquared_threshold
        then [OutItem.orig]
        else [OutItem.rewritten (to_bnd_strings var).1,
              OutItem.rewritten (to_bnd_strings var).2] := by
  rcases hsv with h | h <;> simp [classifyLine, hmei, h, hxy.1, hxy.2]

/-- Claim C2, witness: the decision shape applied to a concrete DEL with one
positive sample; the low-frequency test reports support, so the original line
passes through. -/
theorem C2_driver_witness :
    classifyLine none (9/10) 1 (2/10) (fun _ => 2) [] cvarLow = [OutItem.orig] := by
  rw [C2_driver_decision none (9/10) 1 (2/10) (fun _ => 2) [] cvarLow
    (Or.inl (by decide)) rfl ⟨by decide, by decide⟩]
  decide

/-! ## Claim C4: the exclude set -/

/-- Claim C4, counterexample: an excluded sample's AB/CN values do change the
result of has_high_freq_depth_support - the function's per-sample exclusion is
commented out in the source. The two variants agree on every non-excluded
sample (equal kept-call lists and the same sample names in order) and differ
only in excluded s3's AB/CN, yet the test answers true on one and false on the
other. -/
theorem C4_high_freq_interference :
    cvarHiA.samples.map (fun c => c.name) = cvarHiB.samples.map (fun c => c.name) ∧
    keptCalls cvarHiA ["s3"] = keptCalls cvarHiB ["s3"] ∧
    has_high_freq_depth_support cvarHiA (fun _ => 2) ["s3"] 1 (2/10) = true ∧
    has_high_freq_depth_support cvarHiB (fun _ => 2) ["s3"] 1 (2/10) = false := by
  refine ⟨by decide, by decide, by decide, by decide⟩

/-- Claim C4 (amended): an excluded sample's per-sample fields have no
influence on has_low_freq_depth_support or has_cn_support_by_nb - both factor
through the non-excluded calls - but not on has_high_freq_depth_support, whose
exclusion filter is disabled in the source: two inputs with the same
non-excluded calls give identical results for the former two tests. -/
theorem C4_exclude_noninterference (var : Variant) (samples2 : List SampleCall)
    (gender : String → Nat) (exclude : List String) (expQ lnQ log2Q : ℚ → ℚ)
    (het_del_fit hom_del_fit : Fit) (params : List ParamRow)
    (h : keptCalls { var with samples := samples2 } exclude = keptCalls var exclude) :
    has_low_freq_depth_support { var with samples := samples2 } gender exclude =
      has_low_freq_depth_support var gender exclude ∧
    has_cn_support_by_nb expQ lnQ log2Q { var with samples := samples2 } gender exclude
        het_del_fit hom_del_fit params =
      has_cn_support_by_nb expQ lnQ log2Q var gender exclude het_del_fit hom_del_fit
        params := by
  have hcns : ∀ gt, cnsWithGT { var with samples := samples2 } gender exclude gt =
      cnsWithGT var gender exclude gt := by
    intro gt
    unfold cnsWithGT
    rw [h]
    rfl
  have hsv : svtypeOf { var with samples := samples2 } = svtypeOf var := rfl
  have hbt : buildTestSet lnQ log2Q { var with samples := samples2 } exclude =
      buildTestSet lnQ log2Q var exclude := by
    unfold buildTestSet
    rw [h]
    rfl
  constructor
  · simp only [has_low_freq_depth_support, hcns, hsv]
  · unfold has_cn_support_by_nb nbMerged nbAdjusted
    rw [hbt]

/-- Claim C4, witness: appending a fresh sample that the exclude list names
leaves both the low-frequency and the naive-Bayes test results unchanged. -/
theorem C4_exclude_noninterference_witness :
    has_low_freq_depth_support
        { cvarLow with samples := cvarLow.samples ++ [⟨"sx","1/1",none,99⟩] }
        (fun _ => 2) ["sx"] =
      has_low_freq_depth_support cvarLow (fun _ => 2) ["sx"] ∧
    has_cn_support_by_nb (fun _ => 1) (fun x => x) (fun _ => 0)
        { cvarLow with samples := cvarLow.samples ++ [⟨"sx","1/1",none,99⟩] }
        (fun _ => 2) ["sx"] ⟨0,0⟩ ⟨0,0⟩ [] =
      has_cn_support_by_nb (fun _ => 1) (fun x => x) (fun _ => 0) cvarLow
        (fun _ => 2) ["sx"] ⟨0,0⟩ ⟨0,0⟩ [] :=
  C4_exclude_noninterference cvarLow (cvarLow.samples ++ [⟨"sx","1/1",none,99⟩])
    (fun _ => 2) ["sx"] (fun _ => 1) (fun x => x) (fun _ => 0) ⟨0,0⟩ ⟨0,0⟩ []
    (by decide)

/-! ## Claim C7: to_bnd_strings -/

/-- Claim C7: for a DEL at pos 100 with END 200 and all four confidence
interval INFO fields present, to_bnd_strings yields mate 1 with id _1, ALT
N[chrom:200[, MATEID _2 and no SECONDARY flag, and mate 2 with id _2, ALT
]chrom:100]N, MATEID _1 and the SECONDARY flag; both mates carry SVTYPE BND
and EVENT = original id, neither carries SVLEN or END, and mate 2's
CIPOS/CIPOS95 are the original CIEND/CIEND95 while its CIEND/CIEND95 are the
original CIPOS/CIPOS95. -/
theorem C7_to_bnd_strings (var : Variant) (cp ce cp95 ce95 : String)
    (hsv : getInfo var.info "SVTYPE" = some "DEL")
    (hpos : var.pos = 100)
    (hend : getInfo var.info "END" = some "200")
    (hcp : getInfo var.info "CIPOS" = some cp)
    (hce : getInfo var.info "CIEND" = some ce)
    (hcp95 : getInfo var.info "CIPOS95" = some cp95)
    (hce95 : getInfo var.info "CIEND95" = some ce95)
    (hsec : getInfo var.info "SECONDARY" = none) :
    ((to_bnd_strings var).1.var_id = var.var_id ++ "_1" ∧
     (to_bnd_strings var).1.alt = "N[" ++ var.chrom ++ ":" ++ "200" ++ "[" ∧
     getInfo (to_bnd_strings var).1.info "MATEID" = some (var.var_id ++ "_2") ∧
     getInfo (to_bnd_strings var).1.info "SECONDARY" = none ∧
     getInfo (to_bnd_strings var).1.info "SVTYPE" = some "BND" ∧
     getInfo (to_bnd_strings var).1.info "EVENT" = some var.var_id ∧
     getInfo (to_bnd_strings var).1.info "SVLEN" = none ∧
     getInfo (to_bnd_strings var).1.info "END" = none) ∧
    ((to_bnd_strings var).2.var_id = var.var_id ++ "_2" ∧
     (to_bnd_strings var).2.alt = "]" ++ var.chrom ++ ":" ++ "100" ++ "]N" ∧
     getInfo (to_bnd_strings var).2.info "MATEID" = some (var.var_id ++ "_1") ∧
     getInfo (to_bnd_strings var).2.info "SECONDARY" = some "True" ∧
     getInfo (to_bnd_strings var).2.info "SVTYPE" = some "BND" ∧
     getInfo (to_bnd_strings var).2.info "EVENT" = some var.var_id ∧
     getInfo (to_bnd_strings var).2.info "SVLEN" = none ∧
     getInfo (to_bnd_strings var).2.info "END" = none ∧
     getInfo (to_bnd_strings var).2.info "CIPOS" = some ce ∧
     getInfo (to_bnd_strings var).2.info "CIEND" = some cp ∧
     getInfo (to_bnd_strings var).2.info "CIPOS95" = some ce95 ∧
     getInfo (to_bnd_strings var).2.info "CIEND95" = some cp95) := by
  have h100 : toString (100 : Int) = "100" := by decide
  simp [to_bnd_strings, hsv, hend, hcp, hce, hcp95, hce95, hpos, h100,
    getInfo_setInfo_self, getInfo_setInfo_ne, getInfo_delInfo_self,
    getInfo_delInfo_ne, hsec]

/-- Claim C7, witness: the breakend rewrite of a concrete DEL record at
pos 100 / END 200 on chromosome 2. -/
theorem C7_to_bnd_strings_witness :
    ((to_bnd_strings cvarDel7).1.var_id = cvarDel7.var_id ++ "_1" ∧
     (to_bnd_strings cvarDel7).1.alt = "N[" ++ cvarDel7.chrom ++ ":" ++ "200" ++ "[" ∧
     getInfo (to_bnd_strings cvarDel7).1.info "MATEID" = some (cvarDel7.var_id ++ "_2") ∧
     getInfo (to_bnd_strings cvarDel7).1.info "SECONDARY" = none ∧
     getInfo (to_bnd_strings cvarDel7).1.info "SVTYPE" = some "BND" ∧
     getInfo (to_bnd_strings cvarDel7).1.info "EVENT" = some cvarDel7.var_id ∧
     getInfo (to_bnd_strings cvarDel7).1.info "SVLEN" = none ∧
     getInfo (to_bnd_strings cvarDel7).1.info "END" = none) ∧
    ((to_bnd_strings cvarDel7).2.var_id = cvarDel7.var_id ++ "_2" ∧
     (to_bnd_strings cvarDel7).2.alt = "]" ++ cvarDel7.chrom ++ ":" ++ "100" ++ "]N" ∧
     getInfo (to_bnd_strings cvarDel7).2.info "MATEID" = some (cvarDel7.var_id ++ "_1") ∧
     getInfo (to_bnd_strings cvarDel7).2.info "SECONDARY" = some "True" ∧
     getInfo (to_bnd_strings cvarDel7).2.info "SVTYPE" = some "BND" ∧
     getInfo (to_bnd_strings cvarDel7).2.info "EVENT" = some cvarDel7.var_id ∧
     getInfo (to_bnd_strings cvarDel7).2.info "SVLEN" = none ∧
     getInfo (to_bnd_strings cvarDel7).2.info "END" = none ∧
     getInfo (to_bnd_strings cvarDel7).2.info "CIPOS" = some "-8,7" ∧
     getInfo (to_bnd_strings cvarDel7).2.info "CIEND" = some "-10,9" ∧
     getInfo (to_bnd_strings cvarDel7).2.info "CIPOS95" = some "-3,4" ∧
     getInfo (to_bnd_strings cvarDel7).2.info "CIEND95" = some "-2,1") :=
  C7_to_bnd_strings cvarDel7 "-10,9" "-8,7" "-2,1" "-3,4" (by decide) (by decide)
    (by decide) (by decide) (by decide) (by decide) (by decide) (by decide)

/-! ## Claim C9: the missing-END value error -/

/-- Claim C9: converting a simple (non-BND) SV raises the missing-END value
error exactly when the variant's INFO has no END entry; with END present that
error cannot occur. -/
theorem C9_missing_end_value_error (v : Variant) (st : String)
    (hsv : getInfo v.info "SVTYPE" = some st) (hbnd : st ≠ "BND") :
    (getInfo v.info "END" = none →
      convert (some v) none = Except.error ConvErr.missingEnd) ∧
    (∀ e, getInfo v.info "END" = some e →
      convert (some v) none ≠ Except.error ConvErr.missingEnd) := by
  have hb : (st == "BND") = false := by
    simp only [beq_eq_false_iff_ne, ne_eq]
    exact hbnd
  constructor
  · intro h
    simp [convert, hsv, hb, simple_breakpoints, h]
  · intro e he
    cases hti : toIntS e with
    | none => simp [convert, hsv, hb, simple_breakpoints, he, hti]
    | some b2 => simp [convert, hsv, hb, simple_breakpoints, he, hti]

/-- Claim C9, witness: a concrete DEL with no END entry is rejected with the
missing-END error, and the same record with END present is not. -/
theorem C9_missing_end_witness :
    convert (some { cvarDel7 with info := [("SVTYPE","DEL")] }) none =
      Except.error ConvErr.missingEnd ∧
    convert (some cvarDel7) none ≠ Except.error ConvErr.missingEnd :=
  ⟨(C9_missing_end_value_error { cvarDel7 with info := [("SVTYPE","DEL")] } "DEL"
      (by decide) (by decide)).1 (by decide),
   (C9_missing_end_value_error cvarDel7 "DEL" (by decide) (by decide)).2 "200" (by decide)⟩

/-! ## Claim C10: BEDPE coordinate clamping -/

theorem maxI_zero_nonneg (x : Int) : 0 ≤ maxI x 0 := by
  unfold maxI
  split
  · exact le_refl 0
  · omega

/-- Claim C10: every BEDPE record the converter emits has non-negative
start1/end1/start2/end2 - each coordinate is clamped with max(., 0) after the
confidence-interval adjustment, whichever parser produced it. -/
theorem C10_convert_coords_nonneg (p s : Option Variant) (b : Bedpe)
    (h : convert p s = Except.ok b) :
    0 ≤ b.s1 ∧ 0 ≤ b.e1 ∧ 0 ≤ b.s2 ∧ 0 ≤ b.e2 := by
  unfold convert at h
  split at h
  · exact absurd h (by simp)
  · split at h
    · exact absurd h (by simp)
    · split at h
      · exact absurd h (by simp)
      · rw [Except.ok.injEq] at h
        subst h
        exact ⟨maxI_zero_nonneg _, maxI_zero_nonneg _, maxI_zero_nonneg _,
          maxI_zero_nonneg _⟩

/-- Claim C10, witness: the clamping theorem applied to the conversion of a
concrete BND record whose CIPOS adjustment pushes start1 to -99 before the
clamp. -/
theorem C10_convert_coords_witness :
    0 ≤ (Bedpe.mk "1" 0 6 "2" 0 0 "b1" "BND" '+' '-').s1 ∧
    0 ≤ (Bedpe.mk "1" 0 6 "2" 0 0 "b1" "BND" '+' '-').e1 ∧
    0 ≤ (Bedpe.mk "1" 0 6 "2" 0 0 "b1" "BND" '+' '-').s2 ∧
    0 ≤ (Bedpe.mk "1" 0 6 "2" 0 0 "b1" "BND" '+' '-').e2 :=
  C10_convert_coords_nonneg (some cvarBnd) none
    (Bedpe.mk "1" 0 6 "2" 0 0 "b1" "BND" '+' '-') (by decide)

/-! ## Claim C1: the naive-Bayes mixture and decision rule -/

/-- Every row surviving the naive-Bayes preprocessing carries genotype 0/1 or
1/1, provided every sample call's genotype is one of the three genotypes the
classifier distinguishes: hom-ref rows are dropped and (with the hypothesis)
no other genotype string reaches the merged frame. -/
theorem nbAdjusted_gt (lnQ log2Q : ℚ → ℚ) (var : Variant) (exclude : List String)
    (het_del_fit hom_del_fit : Fit)
    (hgt : ∀ c ∈ var.samples, c.gt = "0/0" ∨ c.gt = "0/1" ∨ c.gt = "1/1") :
    ∀ r ∈ nbAdjusted lnQ log2Q var exclude het_del_fit hom_del_fit,
      r.gt = "0/1" ∨ r.gt = "1/1" := by
  intro r hr
  unfold nbAdjusted at hr
  rw [List.mem_filter] at hr
  obtain ⟨hmem, hne⟩ := hr
  have hne' : ¬(r.gt = "0/0") := by
    intro hh
    rw [hh] at hne
    simp at hne
  have hts : ∀ s ∈ buildTestSet lnQ log2Q var exclude,
      s.gt = "0/0" ∨ s.gt = "0/1" ∨ s.gt = "1/1" := by
    intro s hs
    unfold buildTestSet at hs
    rw [List.mem_map] at hs
    obtain ⟨c, hc, rfl⟩ := hs
    have hcs : c ∈ var.samples := by
      unfold keptCalls at hc
      exact List.mem_of_mem_filter hc
    exact hgt c hcs
  rcases List.mem_append.mp hmem with hmem | hmem
  · rw [List.mem_map] at hmem
    obtain ⟨s, hs, rfl⟩ := hmem
    rcases hts s (List.mem_of_mem_filter hs) with h | h | h
    · exact absurd h hne'
    · exact Or.inl h
    · exact Or.inr h
  · rcases List.mem_append.mp hmem with hmem | hmem
    · rw [List.mem_map] at hmem
      obtain ⟨s, hs, rfl⟩ := hmem
      rw [List.mem_filter] at hs
      have h2 := hs.2
      simp only [Bool.and_eq_true, beq_iff_eq] at h2
      exact Or.inr h2.1.2
    · rw [List.mem_map] at hmem
      obtain ⟨s, hs, rfl⟩ := hmem
      rw [List.mem_filter] at hs
      have h2 := hs.2
      simp only [Bool.and_eq_true, beq_iff_eq] at h2
      exact Or.inl h2.1.2

/-- Claim C1: in has_cn_support_by_nb, every row of the merged frame joins the
distribution entry found for its (sample, svtype), its likelihoods are the
Gaussian expressions (1/sd_g) exp(-(x-mean_g)^2/(2 sd_g^2)) at the adjusted
log2-ratio, its mixture likelihood is the prior-weighted sum with the fixed
table 0/1 -> (0.1, 0.45, 0.45) and 1/1 -> (0, 0.5, 0.5) (hom-ref rows having
been dropped), and the test returns true iff p_cnv times the product of the
mixture likelihoods strictly exceeds (1 - p_cnv) times the product of the lld0
likelihoods, at the driver's p_cnv = 0.5. -/
theorem C1_nb_mixture_decision (expQ lnQ log2Q : ℚ → ℚ) (var : Variant)
    (gender : String → Nat) (exclude : List String) (het_del_fit hom_del_fit : Fit)
    (params : List ParamRow)
    (hgt : ∀ c ∈ var.samples, c.gt = "0/0" ∨ c.gt = "0/1" ∨ c.gt = "1/1")
    (hp : ∀ r ∈ nbAdjusted lnQ log2Q var exclude het_del_fit hom_del_fit,
      (lookupParams params r.sample r.svtype).isSome = true) :
    (∀ m ∈ nbMerged expQ lnQ log2Q var exclude het_del_fit hom_del_fit params,
      lookupParams params m.sample m.svtype =
        some ⟨m.sample, m.svtype, m.mean0, m.mean1, m.mean2, m.sd0, m.sd1, m.sd2⟩ ∧
      m.lld0 = 1 / m.sd0 *
        expQ (-(m.log2r_adj - m.mean0) * (m.log2r_adj - m.mean0) / (2 * m.sd0 * m.sd0)) ∧
      m.lld1 = 1 / m.sd1 *
        expQ (-(m.log2r_adj - m.mean1) * (m.log2r_adj - m.mean1) / (2 * m.sd1 * m.sd1)) ∧
      m.lld2 = 1 / m.sd2 *
        expQ (-(m.log2r_adj - m.mean2) * (m.log2r_adj - m.mean2) / (2 * m.sd2 * m.sd2)) ∧
      ((m.gt = "0/1" ∧ (priorRow m).p_mix =
          1/10 * m.lld0 + 9/20 * m.lld1 + 9/20 * m.lld2) ∨
       (m.gt = "1/1" ∧ (priorRow m).p_mix =
          0 * m.lld0 + 1/2 * m.lld1 + 1/2 * m.lld2))) ∧
    (has_cn_support_by_nb expQ lnQ log2Q var gender exclude het_del_fit hom_del_fit params
        = true ↔
      1/2 * prodQ ((nbMerged expQ lnQ log2Q var exclude het_del_fit hom_del_fit
          params).map (fun r => (priorRow r).p_mix)) >
        (1 - 1/2) * prodQ ((nbMerged expQ lnQ log2Q var exclude het_del_fit hom_del_fit
          params).map (fun r => r.lld0))) := by
  constructor
  · intro m hm
    unfold nbMerged at hm
    rw [List.mem_map] at hm
    obtain ⟨r, hr, rfl⟩ := hm
    have hgtr := nbAdjusted_gt lnQ log2Q var exclude het_del_fit hom_del_fit hgt r hr
    have hps := hp r hr
    rw [Option.isSome_iff_exists] at hps
    obtain ⟨p, hfind⟩ := hps
    obtain ⟨psample, psvtype, a0, a1, a2, b0, b1, b2⟩ := p
    have hfind0 := hfind
    unfold lookupParams at hfind0
    have hpred := List.find?_some hfind0
    simp only [Bool.and_eq_true, beq_iff_eq] at hpred
    obtain ⟨hps1, hps2⟩ := hpred
    subst hps1
    subst hps2
    refine ⟨?_, ?_, ?_, ?_, ?_⟩
    · simp only [mergeRow, hfind, Option.getD_some]
    · simp only [mergeRow, hfind, Option.getD_some, lld]
    · simp only [mergeRow, hfind, Option.getD_some, lld]
    · simp only [mergeRow, hfind, Option.getD_some, lld]
    · rcases hgtr with h | h
      · refine Or.inl ⟨h, ?_⟩
        have hgm : (mergeRow expQ params r).gt = "0/1" := h
        have htr : trPriors (mergeRow expQ params r).gt = (1/10, 9/20, 9/20) := by
          rw [hgm]
          decide
        simp only [priorRow, htr]
        ring
      · refine Or.inr ⟨h, ?_⟩
        have hgm : (mergeRow expQ params r).gt = "1/1" := h
        have htr : trPriors (mergeRow expQ params r).gt = (0, 1/2, 1/2) := by
          rw [hgm]
          decide
        simp only [priorRow, htr]
        ring
  · simp only [has_cn_support_by_nb, rd_support_nb, List.map_map, decide_eq_true_eq]
    exact Iff.rfl

/-- Claim C1, witness: the decision rule instantiated on a concrete large DEL
with one het and one hom-ref sample, a one-row params table and concrete
stand-ins for the transcendental functions; the single surviving row has all
three likelihoods equal to 1, so its mixture is exactly 1 and the strict
comparison 1/2 > 1/2 fails. -/
theorem C1_nb_mixture_decision_witness :
    has_cn_support_by_nb (fun _ => 1) (fun x => x) (fun _ => 0) cvarNB (fun _ => 2) []
        ⟨0,0⟩ ⟨0,0⟩ [⟨"s1","DEL",0,0,0,1,1,1⟩] = true ↔
      1/2 * prodQ ((nbMerged (fun _ => 1) (fun x => x) (fun _ => 0) cvarNB []
          ⟨0,0⟩ ⟨0,0⟩ [⟨"s1","DEL",0,0,0,1,1,1⟩]).map (fun r => (priorRow r).p_mix)) >
        (1 - 1/2) * prodQ ((nbMerged (fun _ => 1) (fun x => x) (fun _ => 0) cvarNB []
          ⟨0,0⟩ ⟨0,0⟩ [⟨"s1","DEL",0,0,0,1,1,1⟩]).map (fun r => r.lld0)) :=
  (C1_nb_mixture_decision (fun _ => 1) (fun x => x) (fun _ => 0) cvarNB (fun _ => 2) []
    ⟨0,0⟩ ⟨0,0⟩ [⟨"s1","DEL",0,0,0,1,1,1⟩] (by decide) (by decide)).2
